import Mathlib

/-!
Verification of the module API of `apiserver/plane/api/views/module.py`:
the module-create endpoint (`ModuleViewSet.create`) and the bulk
add-issues-to-module endpoint (`ModuleIssueViewSet.create`).

The bulk-add endpoint, stripped of the ORM plumbing, is a reconciliation
loop over the requested issue ids: for each requested issue it consults
the list comprehension

    module_issue = [mi for mi in module_issues if str(mi.issue_id) in issues]

and either records a new link, moves an existing link, or does nothing.
We embed that loop faithfully below (including the fact that the
comprehension tests membership of `mi.issue_id` in the whole request
list `issues`, not equality with the loop variable `issue`), model ids
as naturals, and prove or refute the spec's claims about it.
-/

/-- A `ModuleIssue` row: primary key `id`, the linked issue and the module
it currently belongs to.  Audit fields (workspace, created_by, ...) play
no role in the reconciliation logic and are omitted. -/
structure ModuleIssue where
  id : Nat
  issue_id : Nat
  module_id : Nat
deriving DecidableEq, Repr

/-- One entry of `update_module_issue_activity` as built at
module.py:169-175: the stringified old module, new module and issue id
(strings modelled as the underlying ids). -/
structure ActivityDelta where
  old_module_id : Nat
  new_module_id : Nat
  issue_id : Nat
deriving DecidableEq, Repr

/-- The predicate of the inner list comprehension at module.py:161-165:
`str(module_issue.issue_id) in issues`.  It tests membership in the whole
request list `issues`; it does NOT compare with the current loop
variable.  The same predicate also models the initial database fetch
`ModuleIssue.objects.filter(issue_id__in=issues)` (module.py:154). -/
def inRequested (issues : List Nat) (mi : ModuleIssue) : Bool :=
  decide (mi.issue_id ∈ issues)

/-- The mutable state of the loop body at module.py:156-188:
`module_issues` (whose elements are mutated in place when a link is
moved) and the three accumulators. -/
structure ReconcileState where
  module_issues : List ModuleIssue
  update_module_issue_activity : List ActivityDelta
  records_to_update : List ModuleIssue
  record_to_create : List ModuleIssue
deriving DecidableEq, Repr

/-- In-place mutation of `module_issue[0].module_id = module_id`
(module.py:176): the Python statement mutates the first element of the
comprehension result, which is the first element of `module_issues`
satisfying the comprehension's predicate; we replace that element. -/
def replaceFirst (p : ModuleIssue → Bool) (a : ModuleIssue) : List ModuleIssue → List ModuleIssue
  | [] => []
  | x :: xs => if p x then a :: xs else x :: replaceFirst p a xs

/-- One iteration of the `for issue in issues` loop (module.py:160-188).
`module_issue` is the filtered list; if it is non-empty and its head's
module differs from the target, an activity delta and an update record
are appended and the head link is reassigned (in the shared
`module_issues` list); if it is empty, a create record
`ModuleIssue(module=module, issue_id=issue, ...)` is appended (fresh
rows carry no primary key yet; we use 0). -/
def bulkAddStep (module_id : Nat) (issues : List Nat) (st : ReconcileState) (issue : Nat) :
    ReconcileState :=
  match st.module_issues.filter (inRequested issues) with
  | [] =>
      { st with record_to_create :=
          st.record_to_create ++ [{ id := 0, issue_id := issue, module_id := module_id }] }
  | mi :: _ =>
      if mi.module_id ≠ module_id then
        { st with
            update_module_issue_activity := st.update_module_issue_activity ++
              [{ old_module_id := mi.module_id, new_module_id := module_id,
                 issue_id := mi.issue_id }],
            records_to_update := st.records_to_update ++ [{ mi with module_id := module_id }],
            module_issues :=
              replaceFirst (inRequested issues) { mi with module_id := module_id }
                st.module_issues }
      else st

/-- The `for issue in issues` loop itself. -/
def bulkAddLoop (module_id : Nat) (issues : List Nat) :
    ReconcileState → List Nat → ReconcileState
  | st, [] => st
  | st, issue :: rest =>
      bulkAddLoop module_id issues (bulkAddStep module_id issues st issue) rest

/-- The whole reconciliation of `ModuleIssueViewSet.create`
(module.py:154-188): fetch the links of the requested issues, then run
the loop over the request list (duplicates included, in order). -/
def bulkAdd (module_id : Nat) (issues : List Nat) (links : List ModuleIssue) :
    ReconcileState :=
  bulkAddLoop module_id issues
    { module_issues := links.filter (inRequested issues)
      update_module_issue_activity := []
      records_to_update := []
      record_to_create := [] }
    issues

/-- Persistence of the computed plan (module.py:190-200):
`bulk_update(records_to_update, ["module"])` rewrites the `module` field
of the rows named (by primary key) in the update plan, and
`bulk_create(record_to_create, ignore_conflicts=True)` inserts the new
rows.  (`ignore_conflicts` only matters when an inserted row collides
with an existing key; no theorem below applies the plan in such a
situation, so insertion is modelled as plain append.) -/
def applyUpdates (links ups : List ModuleIssue) : List ModuleIssue :=
  links.map fun l =>
    match ups.find? (fun u => decide (u.id = l.id)) with
    | some u => { l with module_id := u.module_id }
    | none => l

/-- Apply a whole reconciliation result to the link table. -/
def applyPlan (links : List ModuleIssue) (st : ReconcileState) : List ModuleIssue :=
  applyUpdates links st.records_to_update ++ st.record_to_create

/-- Response bodies produced by the two handlers of module.py, one
constructor per literal body in the source. -/
inductive RespBody where
  /-- module.py:148 `error: Issues are required` -/
  | issuesRequiredError
  /-- module.py:227 `error: Module Does not exists` -/
  | moduleNotExistsError
  /-- module.py:96 and module.py:232 `error: Something went wrong please try again later` -/
  | genericError
  /-- module.py:90 `name: The module name is already taken` -/
  | nameTakenError
  /-- module.py:85 `error: Project was not found` -/
  | projectNotFoundError
  /-- module.py:81 serializer.errors -/
  | validationErrors
  /-- module.py:80 serializer.data of the created module -/
  | createdModule
  /-- module.py:222 the serialized module-issue queryset -/
  | moduleIssueList
deriving DecidableEq, Repr

/-- An HTTP response: numeric status and body. -/
structure HttpResponse where
  status : Nat
  body : RespBody
deriving DecidableEq, Repr

/-- 4xx statuses. -/
def isClientError (s : Nat) : Prop := 400 ≤ s ∧ s < 500

/-- Bodies that report an error (as opposed to serialized data). -/
def isErrorBody : RespBody → Bool
  | RespBody.issuesRequiredError => true
  | RespBody.moduleNotExistsError => true
  | RespBody.genericError => true
  | RespBody.nameTakenError => true
  | RespBody.projectNotFoundError => true
  | RespBody.validationErrors => true
  | _ => false

/-- The database state the bulk-add endpoint touches: existing module ids
(within the request's workspace/project scope) and the module-issue link
table. -/
structure Db where
  modules : List Nat
  links : List ModuleIssue
deriving DecidableEq, Repr

/-- `ModuleIssueViewSet.create` (module.py:143-234): first the
empty-`issues` guard (module.py:146-149), then the target-module lookup
(module.py:150-152, whose `Module.DoesNotExist` is answered at
module.py:225-228), then the reconciliation loop and the two bulk
writes; on success the serialized queryset is returned with 200.  The
fire-and-forget activity task (module.py:203-219) has no effect on the
response or the link table and is not modelled. -/
def moduleIssueCreate (db : Db) (module_id : Nat) (issues : List Nat) :
    HttpResponse × Db :=
  if issues.length = 0 then
    ({ status := 400, body := RespBody.issuesRequiredError }, db)
  else if module_id ∈ db.modules then
    ({ status := 200, body := RespBody.moduleIssueList },
     { db with links := applyPlan db.links (bulkAdd module_id issues db.links) })
  else
    ({ status := 400, body := RespBody.moduleNotExistsError }, db)

/-- `ModuleViewSet.create` (module.py:71-98): resolve the project (404 if
missing), validate the payload (400 with the serializer errors if
invalid), save; a save that violates the per-project unique-name
constraint raises `IntegrityError("... already exists ...")`, answered
with 410 and the name-taken body (module.py:87-92); otherwise 201 with
the created module.  Whether the name is taken is the `moduleName ∈
existingNames` test; any other unexpected fault (not modelled) would
yield the generic 400 of module.py:93-98, `genericFailureResponse`. -/
def moduleCreate (projectExists : Bool) (existingNames : List Nat) (moduleName : Nat)
    (valid : Bool) : HttpResponse :=
  if projectExists = false then
    { status := 404, body := RespBody.projectNotFoundError }
  else if valid = false then
    { status := 400, body := RespBody.validationErrors }
  else if moduleName ∈ existingNames then
    { status := 410, body := RespBody.nameTakenError }
  else
    { status := 201, body := RespBody.createdModule }

/-- The catch-all failure response of module.py:93-98. -/
def genericFailureResponse : HttpResponse :=
  { status := 400, body := RespBody.genericError }

/-! ## Helper lemmas about the reconciliation loop -/

theorem inRequested_set_module (issues : List Nat) (mi : ModuleIssue) (m : Nat) :
    inRequested issues { mi with module_id := m } = inRequested issues mi := rfl

theorem filter_replaceFirst (p : ModuleIssue → Bool) (a : ModuleIssue) (ha : p a = true) :
    ∀ l : List ModuleIssue, (replaceFirst p a l).filter p =
      match l.filter p with
      | [] => []
      | _ :: t => a :: t
  | [] => by simp [replaceFirst]
  | x :: xs => by
      by_cases hx : p x = true
      · simp [replaceFirst, hx, List.filter_cons, ha]
      · simp [replaceFirst, hx, List.filter_cons, filter_replaceFirst p a ha xs]

theorem bulkAddStep_of_filter_nil (module_id : Nat) (issues : List Nat) (st : ReconcileState)
    (issue : Nat) (h : st.module_issues.filter (inRequested issues) = []) :
    bulkAddStep module_id issues st issue =
      { st with record_to_create :=
          st.record_to_create ++ [{ id := 0, issue_id := issue, module_id := module_id }] } := by
  unfold bulkAddStep
  rw [h]

theorem bulkAddStep_of_filter_cons_ne (module_id : Nat) (issues : List Nat)
    (st : ReconcileState) (issue : Nat) (mi : ModuleIssue) (rest : List ModuleIssue)
    (h : st.module_issues.filter (inRequested issues) = mi :: rest)
    (hne : mi.module_id ≠ module_id) :
    bulkAddStep module_id issues st issue =
      { st with
          update_module_issue_activity := st.update_module_issue_activity ++
            [{ old_module_id := mi.module_id, new_module_id := module_id,
               issue_id := mi.issue_id }],
          records_to_update := st.records_to_update ++ [{ mi with module_id := module_id }],
          module_issues :=
            replaceFirst (inRequested issues) { mi with module_id := module_id }
              st.module_issues } := by
  unfold bulkAddStep
  rw [h]
  simp [hne]

theorem bulkAddStep_of_filter_cons_eq (module_id : Nat) (issues : List Nat)
    (st : ReconcileState) (issue : Nat) (mi : ModuleIssue) (rest : List ModuleIssue)
    (h : st.module_issues.filter (inRequested issues) = mi :: rest)
    (heq : mi.module_id = module_id) :
    bulkAddStep module_id issues st issue = st := by
  unfold bulkAddStep
  rw [h]
  simp [heq]

theorem head_filter_mem_and_sat (p : ModuleIssue → Bool) (l rest : List ModuleIssue)
    (mi : ModuleIssue) (h : l.filter p = mi :: rest) : mi ∈ l ∧ p mi = true := by
  have hmem : mi ∈ l.filter p := by
    rw [h]
    exact List.mem_cons_self mi rest
  exact List.mem_filter.mp hmem

/-- When no fetched link exists, every iteration takes the create branch:
the loop appends one create record per element of the remaining request
list and touches nothing else. -/
theorem bulkAddLoop_module_issues_nil (module_id : Nat) (issues : List Nat) :
    ∀ todo st, st.module_issues = [] →
      bulkAddLoop module_id issues st todo =
        { st with record_to_create := st.record_to_create ++
            todo.map (fun i => { id := 0, issue_id := i, module_id := module_id }) }
  | [], st, h => by simp [bulkAddLoop]
  | issue :: rest, st, h => by
      have hfil : st.module_issues.filter (inRequested issues) = [] := by
        rw [h]
        rfl
      rw [bulkAddLoop, bulkAddStep_of_filter_nil module_id issues st issue hfil,
        bulkAddLoop_module_issues_nil module_id issues rest
          { st with record_to_create := st.record_to_create ++
              [{ id := 0, issue_id := issue, module_id := module_id }] } h]
      simp

/-- A step taken while some fetched link remains keeps the create plan
unchanged and keeps a fetched link around. -/
theorem bulkAddStep_of_ne_nil (module_id : Nat) (issues : List Nat) (st : ReconcileState)
    (issue : Nat) (h : st.module_issues.filter (inRequested issues) ≠ []) :
    (bulkAddStep module_id issues st issue).record_to_create = st.record_to_create ∧
    (bulkAddStep module_id issues st issue).module_issues.filter (inRequested issues) ≠ [] := by
  cases hm : st.module_issues.filter (inRequested issues) with
  | nil => exact absurd hm h
  | cons mi rest =>
      by_cases hne : mi.module_id = module_id
      · rw [bulkAddStep_of_filter_cons_eq module_id issues st issue mi rest hm hne]
        exact ⟨rfl, h⟩
      · rw [bulkAddStep_of_filter_cons_ne module_id issues st issue mi rest hm hne]
        refine ⟨rfl, ?_⟩
        have hp : inRequested issues mi = true :=
          (head_filter_mem_and_sat (inRequested issues) st.module_issues rest mi hm).2
        have hpm : inRequested issues { mi with module_id := module_id } = true := hp
        simp only [filter_replaceFirst (inRequested issues) _ hpm st.module_issues, hm]
        simp

/-- While some fetched link remains, the loop never emits a create. -/
theorem bulkAddLoop_create_of_ne_nil (module_id : Nat) (issues : List Nat) :
    ∀ todo st, st.module_issues.filter (inRequested issues) ≠ [] →
      (bulkAddLoop module_id issues st todo).record_to_create = st.record_to_create
  | [], _, _ => rfl
  | issue :: rest, st, h => by
      obtain ⟨hc, hf⟩ := bulkAddStep_of_ne_nil module_id issues st issue h
      rw [bulkAddLoop, bulkAddLoop_create_of_ne_nil module_id issues rest _ hf, hc]

/-- When every fetched link already points at the target module (and at
least one fetched link exists), every iteration is a no-op. -/
theorem bulkAddLoop_all_target (module_id : Nat) (issues : List Nat) :
    ∀ todo st, (∀ mi ∈ st.module_issues, mi.module_id = module_id) →
      st.module_issues.filter (inRequested issues) ≠ [] →
      bulkAddLoop module_id issues st todo = st
  | [], _, _, _ => rfl
  | issue :: rest, st, hall, hne => by
      cases hm : st.module_issues.filter (inRequested issues) with
      | nil => exact absurd hm hne
      | cons mi tl =>
          have hmem := (head_filter_mem_and_sat (inRequested issues) st.module_issues tl mi hm).1
          rw [bulkAddLoop,
            bulkAddStep_of_filter_cons_eq module_id issues st issue mi tl hm (hall mi hmem),
            bulkAddLoop_all_target module_id issues rest st hall hne]

/-- Proof device for the update-plan bound: 1 if the first fetched link
still points away from the target module, else 0.  Only the first
fetched link is ever examined by the loop, so this is the number of
updates the loop can still emit. -/
def pendingCount (module_id : Nat) (issues : List Nat) (st : ReconcileState) : Nat :=
  match st.module_issues.filter (inRequested issues) with
  | [] => 0
  | mi :: _ => if mi.module_id = module_id then 0 else 1

/-- Each step preserves the sum of emitted updates and pending updates. -/
theorem bulkAddStep_update_sum (module_id : Nat) (issues : List Nat) (st : ReconcileState)
    (issue : Nat) :
    (bulkAddStep module_id issues st issue).records_to_update.length +
      pendingCount module_id issues (bulkAddStep module_id issues st issue) =
    st.records_to_update.length + pendingCount module_id issues st := by
  cases hm : st.module_issues.filter (inRequested issues) with
  | nil =>
      rw [bulkAddStep_of_filter_nil module_id issues st issue hm]
      simp [pendingCount, hm]
  | cons mi rest =>
      by_cases hne : mi.module_id = module_id
      · rw [bulkAddStep_of_filter_cons_eq module_id issues st issue mi rest hm hne]
      · rw [bulkAddStep_of_filter_cons_ne module_id issues st issue mi rest hm hne]
        have hp : inRequested issues mi = true :=
          (head_filter_mem_and_sat (inRequested issues) st.module_issues rest mi hm).2
        have hpm : inRequested issues { mi with module_id := module_id } = true := hp
        simp [pendingCount, hm, hne,
          filter_replaceFirst (inRequested issues) _ hpm st.module_issues]

/-- The loop preserves the sum of emitted updates and pending updates. -/
theorem bulkAddLoop_update_sum (module_id : Nat) (issues : List Nat) :
    ∀ todo st,
      (bulkAddLoop module_id issues st todo).records_to_update.length +
        pendingCount module_id issues (bulkAddLoop module_id issues st todo) =
      st.records_to_update.length + pendingCount module_id issues st
  | [], _ => rfl
  | issue :: rest, st => by
      rw [bulkAddLoop, bulkAddLoop_update_sum module_id issues rest _,
        bulkAddStep_update_sum module_id issues st issue]

/-- Each step appends to the activity list exactly when it appends to the
update plan, so the two lengths stay equal. -/
theorem bulkAddLoop_activity_eq_updates (module_id : Nat) (issues : List Nat) :
    ∀ todo st,
      st.update_module_issue_activity.length = st.records_to_update.length →
      (bulkAddLoop module_id issues st todo).update_module_issue_activity.length =
        (bulkAddLoop module_id issues st todo).records_to_update.length
  | [], _, h => h
  | issue :: rest, st, h => by
      rw [bulkAddLoop]
      refine bulkAddLoop_activity_eq_updates module_id issues rest _ ?_
      cases hm : st.module_issues.filter (inRequested issues) with
      | nil =>
          rw [bulkAddStep_of_filter_nil module_id issues st issue hm]
          exact h
      | cons mi tl =>
          by_cases hne : mi.module_id = module_id
          · rw [bulkAddStep_of_filter_cons_eq module_id issues st issue mi tl hm hne]
            exact h
          · rw [bulkAddStep_of_filter_cons_ne module_id issues st issue mi tl hm hne]
            simp [h]

/-- When no existing link involves a requested issue, the reconciliation
emits one create record per element of the request list (in order,
duplicates included) and nothing else. -/
theorem bulkAdd_of_no_links (module_id : Nat) (issues : List Nat) (links : List ModuleIssue)
    (h : ∀ l ∈ links, l.issue_id ∉ issues) :
    bulkAdd module_id issues links =
      { module_issues := []
        update_module_issue_activity := []
        records_to_update := []
        record_to_create :=
          issues.map (fun i => { id := 0, issue_id := i, module_id := module_id }) } := by
  have hfil : links.filter (inRequested issues) = [] := by
    apply List.filter_eq_nil_iff.mpr
    intro a ha
    simp [inRequested, h a ha]
  unfold bulkAdd
  rw [hfil]
  rw [bulkAddLoop_module_issues_nil module_id issues issues
    { module_issues := [], update_module_issue_activity := [], records_to_update := [],
      record_to_create := [] } rfl]
  simp

/-- As soon as one existing link involves a requested issue, the loop
never reaches the create branch: the create plan is empty. -/
theorem bulkAdd_create_of_exists_link (module_id : Nat) (issues : List Nat)
    (links : List ModuleIssue) (h : ∃ l ∈ links, l.issue_id ∈ issues) :
    (bulkAdd module_id issues links).record_to_create = [] := by
  obtain ⟨l, hl, hi⟩ := h
  have hp : inRequested issues l = true := by simp [inRequested, hi]
  have hmem : l ∈ links.filter (inRequested issues) := List.mem_filter.mpr ⟨hl, hp⟩
  have hne : (links.filter (inRequested issues)).filter (inRequested issues) ≠ [] :=
    List.ne_nil_of_mem (List.mem_filter.mpr ⟨hmem, hp⟩)
  unfold bulkAdd
  exact bulkAddLoop_create_of_ne_nil module_id issues issues
    { module_issues := links.filter (inRequested issues), update_module_issue_activity := [],
      records_to_update := [], record_to_create := [] } hne

/-- An empty update plan writes nothing back. -/
theorem applyUpdates_nil (links : List ModuleIssue) : applyUpdates links [] = links := by
  simp [applyUpdates]

/-! ## Claim theorems -/

/-- Claim C1 (refuted, code bug): with module 10 holding links for issues
1 (A) and 2 (B), bulk-adding issues [2, 3] (B, C) to module 20 is claimed
to create a link for 3, move 2, and log the move of 2.  The code indeed
moves 2 and logs it, but its create plan is empty: the inner
comprehension matches B's link for every requested issue (it tests
membership in `issues`, not equality with the loop variable), so issue 3
is treated as already linked and never created. -/
theorem c1_scenario_create_plan_is_empty :
    (bulkAdd 20 [2, 3] [{ id := 1, issue_id := 1, module_id := 10 },
                        { id := 2, issue_id := 2, module_id := 10 }]).record_to_create = [] ∧
    (bulkAdd 20 [2, 3] [{ id := 1, issue_id := 1, module_id := 10 },
                        { id := 2, issue_id := 2, module_id := 10 }]).records_to_update =
      [{ id := 2, issue_id := 2, module_id := 20 }] ∧
    (bulkAdd 20 [2, 3] [{ id := 1, issue_id := 1, module_id := 10 },
                        { id := 2, issue_id := 2, module_id := 10 }]).update_module_issue_activity =
      [{ old_module_id := 10, new_module_id := 20, issue_id := 2 }] := by decide

/-- Claim C2 (refuted, code bug): issues 1 and 2 are both linked to
module 10 and both requested for module 20, so the claim demands two
update entries and two activity deltas (one per issue).  The code emits
exactly one of each — after the first iteration moves the first fetched
link, that same link is the head of the comprehension result for every
later iteration and already points at the target, so issue 2's link is
never moved. -/
theorem c2_second_moved_issue_gets_no_update :
    (bulkAdd 20 [1, 2] [{ id := 1, issue_id := 1, module_id := 10 },
                        { id := 2, issue_id := 2, module_id := 10 }]).records_to_update =
      [{ id := 1, issue_id := 1, module_id := 20 }] ∧
    (bulkAdd 20 [1, 2] [{ id := 1, issue_id := 1, module_id := 10 },
                        { id := 2, issue_id := 2, module_id := 10 }]).update_module_issue_activity =
      [{ old_module_id := 10, new_module_id := 20, issue_id := 1 }] := by decide

/-- Claim C3 (corrected): with no pre-existing links the update and
activity plans are indeed empty, but the create plan has one entry per
element of the request list — duplicates are NOT collapsed to the
deduplicated set, as the counterexample `c3_counterexample` shows. -/
theorem c3_no_links_create_per_occurrence (module_id : Nat) (issues : List Nat)
    (links : List ModuleIssue) (h : ∀ l ∈ links, l.issue_id ∉ issues) :
    (bulkAdd module_id issues links).record_to_create.length = issues.length ∧
    (bulkAdd module_id issues links).records_to_update = [] ∧
    (bulkAdd module_id issues links).update_module_issue_activity = [] := by
  rw [bulkAdd_of_no_links module_id issues links h]
  simp

/-- Claim C3, counterexample: requesting [5, 5] with no existing links
produces a create plan of size 2, not the size 1 of the deduplicated
input set. -/
theorem c3_counterexample :
    (bulkAdd 20 [5, 5] []).record_to_create.length = 2 ∧
    ([5, 5] : List Nat).dedup.length = 1 := by decide

/-- Claim C3, witness for `c3_no_links_create_per_occurrence` at a
concrete input. -/
theorem c3_witness :
    (bulkAdd 20 [5, 5] []).record_to_create.length = ([5, 5] : List Nat).length ∧
    (bulkAdd 20 [5, 5] []).records_to_update = [] ∧
    (bulkAdd 20 [5, 5] []).update_module_issue_activity = [] :=
  c3_no_links_create_per_occurrence 20 [5, 5] [] (by decide)

/-- Claim C4 (corrected): the update plan and activity list contain at
most one entry in total — in particular at most one entry per unique
issue id — but duplicate issue ids in the request DO produce duplicate
create entries (see `c4_counterexample`): nothing dedupes the request
before the loop. -/
theorem c4_update_plan_at_most_one (module_id : Nat) (issues : List Nat)
    (links : List ModuleIssue) :
    (bulkAdd module_id issues links).records_to_update.length ≤ 1 ∧
    (bulkAdd module_id issues links).update_module_issue_activity.length =
      (bulkAdd module_id issues links).records_to_update.length := by
  have key : ∀ st0 : ReconcileState, st0.records_to_update = [] →
      pendingCount module_id issues st0 ≤ 1 →
      (bulkAddLoop module_id issues st0 issues).records_to_update.length ≤ 1 := by
    intro st0 h0 h1
    have hsum := bulkAddLoop_update_sum module_id issues issues st0
    rw [h0] at hsum
    simp only [List.length_nil, Nat.zero_add] at hsum
    omega
  have hpending : ∀ st0 : ReconcileState, pendingCount module_id issues st0 ≤ 1 := by
    intro st0
    unfold pendingCount
    cases (st0.module_issues.filter (inRequested issues)) with
    | nil => simp
    | cons mi tl => by_cases hx : mi.module_id = module_id <;> simp [hx]
  constructor
  · exact key
      { module_issues := links.filter (inRequested issues), update_module_issue_activity := [],
        records_to_update := [], record_to_create := [] } rfl (hpending _)
  · exact bulkAddLoop_activity_eq_updates module_id issues issues
      { module_issues := links.filter (inRequested issues), update_module_issue_activity := [],
        records_to_update := [], record_to_create := [] } rfl

/-- Claim C4, counterexample: the request [5, 5] with no existing links
yields two create entries for the same issue 5, so the plan does not
have at most one entry per unique issue id. -/
theorem c4_counterexample :
    (bulkAdd 20 [5, 5] []).record_to_create =
      [{ id := 0, issue_id := 5, module_id := 20 },
       { id := 0, issue_id := 5, module_id := 20 }] ∧
    (bulkAdd 20 [5, 5] []).record_to_create.countP (fun r => decide (r.issue_id = 5)) = 2 := by
  decide

/-- Claim C5 (confirmed): when every requested issue already has a link
to the target module (and, per the at-most-one-link invariant, no other
link involves a requested issue), the reconciliation emits no create, no
update and no activity entry, applying the plan leaves the link table
unchanged, and a second run on the resulting table again yields an
all-empty plan. -/
theorem c5_already_in_target_idempotent (module_id : Nat) (issues : List Nat)
    (links : List ModuleIssue)
    (h1 : ∀ i ∈ issues, ∃ l ∈ links, l.issue_id = i ∧ l.module_id = module_id)
    (h2 : ∀ l ∈ links, l.issue_id ∈ issues → l.module_id = module_id) :
    (bulkAdd module_id issues links).record_to_create = [] ∧
    (bulkAdd module_id issues links).records_to_update = [] ∧
    (bulkAdd module_id issues links).update_module_issue_activity = [] ∧
    applyPlan links (bulkAdd module_id issues links) = links ∧
    (bulkAdd module_id issues
      (applyPlan links (bulkAdd module_id issues links))).record_to_create = [] ∧
    (bulkAdd module_id issues
      (applyPlan links (bulkAdd module_id issues links))).records_to_update = [] ∧
    (bulkAdd module_id issues
      (applyPlan links (bulkAdd module_id issues links))).update_module_issue_activity = [] := by
  have hrun : bulkAdd module_id issues links =
      { module_issues := links.filter (inRequested issues), update_module_issue_activity := [],
        records_to_update := [], record_to_create := [] } := by
    cases issues with
    | nil => rfl
    | cons i rest =>
        have hall : ∀ mi ∈ (links.filter (inRequested (i :: rest))), mi.module_id = module_id := by
          intro mi hmi
          obtain ⟨hml, hmp⟩ := List.mem_filter.mp hmi
          exact h2 mi hml (by simpa [inRequested] using hmp)
        obtain ⟨l0, hl0, hid0, _⟩ := h1 i (List.mem_cons_self i rest)
        have hp0 : inRequested (i :: rest) l0 = true := by
          simp [inRequested, hid0]
        have hmem0 : l0 ∈ links.filter (inRequested (i :: rest)) :=
          List.mem_filter.mpr ⟨hl0, hp0⟩
        have hne : (links.filter (inRequested (i :: rest))).filter
            (inRequested (i :: rest)) ≠ [] :=
          List.ne_nil_of_mem (List.mem_filter.mpr ⟨hmem0, hp0⟩)
        unfold bulkAdd
        exact bulkAddLoop_all_target module_id (i :: rest) (i :: rest)
          { module_issues := links.filter (inRequested (i :: rest)),
            update_module_issue_activity := [], records_to_update := [],
            record_to_create := [] } hall hne
  have happly : applyPlan links (bulkAdd module_id issues links) = links := by
    rw [hrun]
    show applyUpdates links [] ++ [] = links
    rw [applyUpdates_nil]
    simp
  refine ⟨by rw [hrun], by rw [hrun], by rw [hrun], happly, ?_, ?_, ?_⟩ <;>
    rw [happly, hrun]

/-- Claim C6 (refuted, code bug): in the C1 scenario (issues 1 and 2
linked to module 10; issues 2 and 3 requested for module 20) the table
obtained by applying the computed plan holds no link at all for the
requested issue 3, so not every requested issue ends up linked to the
target module. -/
theorem c6_requested_issue_left_unlinked :
    applyPlan [{ id := 1, issue_id := 1, module_id := 10 },
               { id := 2, issue_id := 2, module_id := 10 }]
      (bulkAdd 20 [2, 3] [{ id := 1, issue_id := 1, module_id := 10 },
                          { id := 2, issue_id := 2, module_id := 10 }]) =
      [{ id := 1, issue_id := 1, module_id := 10 },
       { id := 2, issue_id := 2, module_id := 20 }] ∧
    (applyPlan [{ id := 1, issue_id := 1, module_id := 10 },
                { id := 2, issue_id := 2, module_id := 10 }]
      (bulkAdd 20 [2, 3] [{ id := 1, issue_id := 1, module_id := 10 },
                          { id := 2, issue_id := 2, module_id := 10 }])).countP
      (fun l => decide (l.issue_id = 3)) = 0 := by decide

/-- Claim C9 (confirmed): the create plan and the update plan are never
both non-empty.  If some existing link involves a requested issue the
create plan is empty (even for requested issues that have no link of
their own); if none does, the update and activity plans are empty and
the create plan has exactly one entry per element of the request list,
duplicates included. -/
theorem c9_create_update_exclusive (module_id : Nat) (issues : List Nat)
    (links : List ModuleIssue) :
    (¬((bulkAdd module_id issues links).record_to_create ≠ [] ∧
       (bulkAdd module_id issues links).records_to_update ≠ [])) ∧
    ((∃ l ∈ links, l.issue_id ∈ issues) →
      (bulkAdd module_id issues links).record_to_create = []) ∧
    ((∀ l ∈ links, l.issue_id ∉ issues) →
      (bulkAdd module_id issues links).records_to_update = [] ∧
      (bulkAdd module_id issues links).update_module_issue_activity = [] ∧
      (bulkAdd module_id issues links).record_to_create.length = issues.length) := by
  refine ⟨?_, fun h => bulkAdd_create_of_exists_link module_id issues links h, fun h => ?_⟩
  · rintro ⟨hc, hu⟩
    by_cases hx : ∃ l ∈ links, l.issue_id ∈ issues
    · exact hc (bulkAdd_create_of_exists_link module_id issues links hx)
    · push_neg at hx
      rw [bulkAdd_of_no_links module_id issues links hx] at hu
      exact hu rfl
  · rw [bulkAdd_of_no_links module_id issues links h]
    simp

/-- Claim C7 (confirmed): a bulk-add naming a module id that is not in
the database answers with a 4xx error body and leaves the database
untouched, and a bulk-add with an empty `issues` list answers 400 with
the issues-required error body and leaves the database untouched. -/
theorem c7_error_paths_no_mutation (db : Db) (module_id : Nat) (issues : List Nat) :
    (module_id ∉ db.modules →
      isClientError (moduleIssueCreate db module_id issues).1.status ∧
      isErrorBody (moduleIssueCreate db module_id issues).1.body = true ∧
      (moduleIssueCreate db module_id issues).2 = db) ∧
    (issues = [] →
      (moduleIssueCreate db module_id issues).1 =
        { status := 400, body := RespBody.issuesRequiredError } ∧
      isClientError (moduleIssueCreate db module_id issues).1.status ∧
      (moduleIssueCreate db module_id issues).2 = db) := by
  constructor
  · intro hmod
    by_cases hlen : issues.length = 0
    · simp [moduleIssueCreate, hlen, isClientError, isErrorBody]
    · simp [moduleIssueCreate, hlen, hmod, isClientError, isErrorBody]
  · intro hnil
    subst hnil
    simp [moduleIssueCreate, isClientError]

/-- Claim C7, witness: a concrete database without module 5 and a
concrete empty-issues request both take the error paths. -/
theorem c7_witness :
    (isClientError (moduleIssueCreate { modules := [], links := [] } 5 [1]).1.status ∧
      isErrorBody (moduleIssueCreate { modules := [], links := [] } 5 [1]).1.body = true ∧
      (moduleIssueCreate { modules := [], links := [] } 5 [1]).2 =
        { modules := [], links := [] }) ∧
    ((moduleIssueCreate { modules := [7], links := [] } 7 []).1 =
        { status := 400, body := RespBody.issuesRequiredError } ∧
      isClientError (moduleIssueCreate { modules := [7], links := [] } 7 []).1.status ∧
      (moduleIssueCreate { modules := [7], links := [] } 7 []).2 =
        { modules := [7], links := [] }) :=
  ⟨(c7_error_paths_no_mutation { modules := [], links := [] } 5 [1]).1 (by decide),
   (c7_error_paths_no_mutation { modules := [7], links := [] } 7 []).2 rfl⟩

/-- Claim C8 (confirmed): creating a module whose name is already taken
in the project answers 410 with the name-conflict body, which is a
client-error status and differs (in status and in body) from the generic
failure response of module.py:93-98. -/
theorem c8_name_conflict_distinct (existingNames : List Nat) (moduleName : Nat)
    (h : moduleName ∈ existingNames) :
    moduleCreate true existingNames moduleName true =
      { status := 410, body := RespBody.nameTakenError } ∧
    isClientError (moduleCreate true existingNames moduleName true).status ∧
    moduleCreate true existingNames moduleName true ≠ genericFailureResponse := by
  have hval : moduleCreate true existingNames moduleName true =
      { status := 410, body := RespBody.nameTakenError } := by
    simp [moduleCreate, h]
  refine ⟨hval, ?_, ?_⟩
  · rw [hval]
    exact ⟨by norm_num, by norm_num⟩
  · rw [hval]
    simp [genericFailureResponse]

/-- Claim C8, witness: module name 3 is already used in the project. -/
theorem c8_witness :
    moduleCreate true [3] 3 true = { status := 410, body := RespBody.nameTakenError } ∧
    isClientError (moduleCreate true [3] 3 true).status ∧
    moduleCreate true [3] 3 true ≠ genericFailureResponse :=
  c8_name_conflict_distinct [3] 3 (by decide)

/-- Claim C10 (confirmed): the empty-`issues` guard runs before the
module lookup, so even against a database that lacks the target module a
request with an empty issue list gets the issues-required 400 and the
database is unchanged. -/
theorem c10_empty_check_before_module_lookup (db : Db) (module_id : Nat)
    (h : module_id ∉ db.modules) :
    moduleIssueCreate db module_id [] =
      ({ status := 400, body := RespBody.issuesRequiredError }, db) := by
  simp [moduleIssueCreate]

/-- Claim C10, witness: module 9 is absent from the concrete database. -/
theorem c10_witness :
    moduleIssueCreate { modules := [], links := [] } 9 [] =
      ({ status := 400, body := RespBody.issuesRequiredError },
       { modules := [], links := [] }) :=
  c10_empty_check_before_module_lookup { modules := [], links := [] } 9 (by decide)

/-- Claim C5, witness: issue 1 is already linked (row 7) to the target
module 20. -/
theorem c5_witness :
    (bulkAdd 20 [1] [{ id := 7, issue_id := 1, module_id := 20 }]).record_to_create = [] ∧
    (bulkAdd 20 [1] [{ id := 7, issue_id := 1, module_id := 20 }]).records_to_update = [] ∧
    (bulkAdd 20 [1] [{ id := 7, issue_id := 1, module_id := 20 }]).update_module_issue_activity
      = [] ∧
    applyPlan [{ id := 7, issue_id := 1, module_id := 20 }]
      (bulkAdd 20 [1] [{ id := 7, issue_id := 1, module_id := 20 }]) =
      [{ id := 7, issue_id := 1, module_id := 20 }] ∧
    (bulkAdd 20 [1] (applyPlan [{ id := 7, issue_id := 1, module_id := 20 }]
      (bulkAdd 20 [1] [{ id := 7, issue_id := 1, module_id := 20 }]))).record_to_create = [] ∧
    (bulkAdd 20 [1] (applyPlan [{ id := 7, issue_id := 1, module_id := 20 }]
      (bulkAdd 20 [1] [{ id := 7, issue_id := 1, module_id := 20 }]))).records_to_update = [] ∧
    (bulkAdd 20 [1] (applyPlan [{ id := 7, issue_id := 1, module_id := 20 }]
      (bulkAdd 20 [1] [{ id := 7, issue_id := 1, module_id := 20 }]))).update_module_issue_activity
      = [] :=
  c5_already_in_target_idempotent 20 [1] [{ id := 7, issue_id := 1, module_id := 20 }]
    (by decide) (by decide)

/-- Claim C9, witness: with issue 1 linked to module 10 and requested
for module 20, the create plan is empty. -/
theorem c9_witness :
    (bulkAdd 20 [1, 2] [{ id := 1, issue_id := 1, module_id := 10 }]).record_to_create = [] :=
  (c9_create_update_exclusive 20 [1, 2] [{ id := 1, issue_id := 1, module_id := 10 }]).2.1
    ⟨{ id := 1, issue_id := 1, module_id := 10 }, by decide, by decide⟩
